import Mathlib

/-!
Shallow embedding of `src/lib/smtp/client.js` from node-smtp-dkim:
the SMTP session driver (HELO/EHLO, MAIL, RCPT, DATA, QUIT, capability
parsing) and, modelled from the specification, the reply assembler
(`PacketHandler`, whose source is not in the repository snapshot).

Status codes travel as strings, as the JS code compares them with
string literals (`packet.status == "250"`). A reply packet carries the
status and the list of text lines (`packet.data` in the JS code).
-/

namespace SmtpClient

/-- One complete SMTP reply: status code (as a string, e.g. `"250"`) and
the ordered list of text lines (`packet.data` in the JS code). -/
structure ReplyPacket where
  status : String
  data : List String
deriving DecidableEq, Repr

/-- A JS capability value: either the boolean `true` (flag-only
capability) or a string. -/
inductive CapValue where
  | flag
  | str (s : String)
deriving DecidableEq, Repr

/-- A JS object used as a string-keyed map, in insertion order. -/
abbrev Obj := List (String × CapValue)

/-- `obj[k] = v` on a JS object: overwrite the binding in place if the
key exists, else append a new binding. -/
def objSet : Obj → String → CapValue → Obj
  | [], k, v => [(k, v)]
  | (k', v') :: rest, k, v =>
    if k' = k then (k', v) :: rest else (k', v') :: objSet rest k v

/-- `obj[k]` lookup on a JS object. -/
def objGet : Obj → String → Option CapValue
  | [], _ => none
  | (k', v') :: rest, k => if k' = k then some v' else objGet rest k

/-- Left-biased choice on option values (JS `a !== undefined ? a : b`). -/
def optOr (a b : Option CapValue) : Option CapValue :=
  match a with
  | some v => some v
  | none => b

/-- Session-visible state of a `Client`: the constructor sets
`esmtp = false` and `capabilities = {}`; `connected` is unset (falsy)
until a successful handshake; the socket is open once `connect` ran. -/
structure ClientState where
  esmtp : Bool
  capabilities : Obj
  connected : Bool
  socketOpen : Bool
deriving DecidableEq, Repr

/-- The state right after the constructor and `connect`'s socket
creation: `esmtp` false, empty capabilities, not connected, socket open. -/
def initialState : ClientState :=
  { esmtp := false, capabilities := [], connected := false, socketOpen := true }

/-- Outcome of one verb operation: `emitSuccess` / `emitError`, each
carrying the reply packet when the JS code passes one. -/
inductive Outcome where
  | ok (p : Option ReplyPacket)
  | err (p : Option ReplyPacket)
deriving DecidableEq, Repr

/-- `writeline(line)` sends `line + "\r\n"`; `send(...)` builds the line
by joining its arguments with single spaces (`Array.prototype.join`). -/
def sendLine (args : List String) : String :=
  String.intercalate " " args ++ "\r\n"

/-- JS `String.prototype.split(" ")` on the underlying character list:
split at every single space character, keeping empty fragments (so the
result is never empty and round-trips with `join(" ")`). -/
def splitSpace : List Char → List (List Char)
  | [] => [[]]
  | c :: rest =>
    let ts := splitSpace rest
    if c = ' ' then [] :: ts
    else (c :: ts.headD []) :: ts.tail

/-- JS `line.split(" ")` as a list of strings. -/
def jsSplitSpace (line : String) : List String :=
  (splitSpace line.data).map String.mk

/-- JS `Array.prototype.join(" ")`. -/
def joinSpace : List String → String
  | [] => ""
  | [x] => x
  | x :: xs => x ++ " " ++ joinSpace xs

/-- `item[0]` of `item = data[i].split(" ")`. -/
def capKey (line : String) : String := (jsSplitSpace line).headD ""

/-- `item.length > 1 ? item.join(" ") : true` of the loop body. -/
def capVal (line : String) : CapValue :=
  if (jsSplitSpace line).length > 1 then CapValue.str (joinSpace (jsSplitSpace line))
  else CapValue.flag

/-- One step of `parseCapabilities`' loop body:
`item = data[i].split(" "); capabilities[item[0]] = item.length > 1 ?
item.join(" ") : true`. -/
def capStep (caps : Obj) (line : String) : Obj :=
  objSet caps (capKey line) (capVal line)

/-- `Client.prototype.parseCapabilities(data)`: iterates `i = 1 .. data.length-1`
over the reply lines, mutating `this.capabilities` by `capStep`. -/
def parseCapabilities (data : List String) (caps : Obj) : Obj :=
  (data.drop 1).foldl capStep caps

/-- `helo()` writes `HELO <host>` through `send`. -/
def heloWrite (host : String) : String := sendLine ["HELO", host]

/-- `ehlo()` writes `EHLO <host>` through `send`. -/
def ehloWrite (host : String) : String := sendLine ["EHLO", host]

/-- `helo()`'s reply callback: on `250` parse capabilities, set
`connected = true` and emit success with the packet; otherwise emit the
packet as error. -/
def heloHandler (s : ClientState) (p : ReplyPacket) : ClientState × Outcome :=
  if p.status = "250" then
    ({ s with capabilities := parseCapabilities p.data s.capabilities, connected := true },
      Outcome.ok (some p))
  else (s, Outcome.err (some p))

/-- `ehlo()`'s reply callback, textually the same as `helo()`'s. -/
def ehloHandler (s : ClientState) (p : ReplyPacket) : ClientState × Outcome :=
  if p.status = "250" then
    ({ s with capabilities := parseCapabilities p.data s.capabilities, connected := true },
      Outcome.ok (some p))
  else (s, Outcome.err (some p))

/-- `mail(address)` writes `send("MAIL", "FROM:", "<" + address + ">")`. -/
def mailWrite (address : String) : String :=
  sendLine ["MAIL", "FROM:", "<" ++ address ++ ">"]

/-- `mail(address)`'s reply callback: success with the packet on `250`,
else error with the packet. -/
def mailHandler (p : ReplyPacket) : Outcome :=
  if p.status = "250" then Outcome.ok (some p) else Outcome.err (some p)

/-- `rcpt(address)` writes `send("RCPT", "TO:", "<" + address + ">")`. -/
def rcptWrite (address : String) : String :=
  sendLine ["RCPT", "TO:", "<" ++ address ++ ">"]

/-- `rcpt(address)`'s reply callback. -/
def rcptHandler (p : ReplyPacket) : Outcome :=
  if p.status = "250" then Outcome.ok (some p) else Outcome.err (some p)

/-- `beginData()` writes `send("DATA")`. -/
def beginDataWrite : String := sendLine ["DATA"]

/-- `beginData()`'s reply callback: success (no packet) on `354`, else
error with the packet. -/
def beginDataHandler (p : ReplyPacket) : Outcome :=
  if p.status = "354" then Outcome.ok none else Outcome.err (some p)

/-- `sendData(data)` writes the payload bytes raw (`socket.write(data)`),
with no framing added. -/
def sendDataWrite (d : String) : String := d

/-- `endData()` writes `send("\r\n.")`, i.e. `"\r\n." + "\r\n"` on the wire. -/
def endDataWrite : String := sendLine ["\r\n."]

/-- `endData()`'s reply callback: success (no packet) on `250`, else
error with the packet. -/
def endDataHandler (p : ReplyPacket) : Outcome :=
  if p.status = "250" then Outcome.ok none else Outcome.err (some p)

/-- `quit()`'s reply callback: on `221` close the socket (`socket.end()`)
and emit success with no packet; otherwise emit error with NO arguments
(`promise.emitError()`), so the failure carries no packet. -/
def quitHandler (s : ClientState) (p : ReplyPacket) : ClientState × Outcome :=
  if p.status = "221" then
    ({ s with socketOpen := false }, Outcome.ok none)
  else (s, Outcome.err none)

/-- The composite `data(payload)` operation: `beginData()`, then on its
success `sendData(payload)` (which always resolves) and `endData()`,
propagating the first error. Returns the list of transport writes
performed, in order, and the final outcome. -/
def dataOp (payload : String) (r1 r2 : ReplyPacket) : List String × Outcome :=
  match beginDataHandler r1 with
  | Outcome.err e => ([beginDataWrite], Outcome.err e)
  | Outcome.ok _ =>
    match endDataHandler r2 with
    | Outcome.err e => ([beginDataWrite, sendDataWrite payload, endDataWrite], Outcome.err e)
    | Outcome.ok _ => ([beginDataWrite, sendDataWrite payload, endDataWrite], Outcome.ok none)

/-- JS `Array.prototype.join(",")` (the array-to-string coercion applied
by `RegExp.prototype.test`). -/
def joinComma : List String → String
  | [] => ""
  | [x] => x
  | x :: xs => x ++ "," ++ joinComma xs

/-- Boolean infix test on character lists (used to model the JS regex
substring test). -/
def isInfixB (pat : List Char) : List Char → Bool
  | [] => pat.isEmpty
  | c :: rest => pat.isPrefixOf (c :: rest) || isInfixB pat rest

/-- `/ESMTP/i.test(packet.data)`: JS coerces the array of lines to the
comma-joined string, then tests for `ESMTP` case-insensitively. Since
the pattern has no comma, this holds exactly when some line contains it. -/
def esmtpRegexTest (data : List String) : Bool :=
  isInfixB "ESMTP".data ((joinComma data).data.map Char.toUpper)

/-- `connect`'s one-shot greeting listener: on status `220`, set
`esmtp = true` when the regex matches (leave it alone otherwise) and
accept; on any other status reject. The Boolean result records whether
the greeting was accepted (the listener removes itself first, so this
runs exactly once per connection). -/
def connectGreeting (s : ClientState) (p : ReplyPacket) : ClientState × Bool :=
  if p.status = "220" then
    (if esmtpRegexTest p.data then { s with esmtp := true } else s, true)
  else (s, false)

/-- `handshake()` issues EHLO when `esmtp` is set, else HELO. -/
def handshakeWrite (s : ClientState) (host : String) : String :=
  if s.esmtp then ehloWrite host else heloWrite host

/-!
## Reply assembler

Modelled from the spec: the `PacketHandler` module (`./packetHandler`,
the Reply Assembler) is required by `client.js` but its source is not in
the repository snapshot, so it is modelled here from the specification:
lines are CRLF-delimited and a chunk may end mid-line (the unterminated
suffix is retained); a complete line is `DDD` (three decimal digits)
followed by `-` for a continuation line or a space / end-of-line for the
final line of a reply, with the prefix stripped from the stored text;
malformed lines (non-numeric prefix, or continuation digits differing
from the reply's established status) are tolerated by best-effort
inclusion in `lines`; completed packets are emitted in order and a
partial reply is never emitted.
-/

/-- State of the reply assembler: the current partial line in reverse
order, the established status of a multi-line reply in progress, its
accumulated lines, and the packets emitted so far (in order). -/
structure AsmState where
  rbuf : List Char
  curStatus : Option String
  curLines : List String
  out : List ReplyPacket
deriving DecidableEq, Repr

/-- The assembler's state at the start of a connection. -/
def initAsm : AsmState :=
  { rbuf := [], curStatus := none, curLines := [], out := [] }

/-- Modelled from the spec: processing of one complete (CRLF-terminated)
reply line. A `DDD-text` line is a continuation: it establishes the
reply's status if none is established yet and appends `text`; a
`DDD text` line (or bare `DDD`) completes the reply and emits a packet
whose status is the established status (or this line's digits for a
single-line reply); any other line is malformed and is included
best-effort in the current reply's lines without completing it. -/
def handleLine (s : AsmState) (line : List Char) : AsmState :=
  match line with
  | d1 :: d2 :: d3 :: rest =>
    if d1.isDigit && d2.isDigit && d3.isDigit then
      let st := String.mk [d1, d2, d3]
      match rest with
      | '-' :: text =>
        { s with curStatus := some (s.curStatus.getD st),
                 curLines := s.curLines ++ [String.mk text] }
      | ' ' :: text =>
        { s with curStatus := none, curLines := [],
                 out := s.out ++ [⟨s.curStatus.getD st, s.curLines ++ [String.mk text]⟩] }
      | [] =>
        { s with curStatus := none, curLines := [],
                 out := s.out ++ [⟨s.curStatus.getD st, s.curLines ++ [""]⟩] }
      | _ => { s with curLines := s.curLines ++ [String.mk line] }
    else { s with curLines := s.curLines ++ [String.mk line] }
  | _ => { s with curLines := s.curLines ++ [String.mk line] }

/-- Modelled from the spec: the assembler consumes the byte stream one
character at a time; a `'\n'` that follows a buffered `'\r'` terminates
the current line, which is then processed by `handleLine`. -/
def asmStep (s : AsmState) (c : Char) : AsmState :=
  if c = '\n' then
    match s.rbuf with
    | '\r' :: rest => handleLine { s with rbuf := [] } rest.reverse
    | _ => { s with rbuf := c :: s.rbuf }
  else { s with rbuf := c :: s.rbuf }

/-- Modelled from the spec: `feed(bytes)` — consume one chunk. -/
def feed (s : AsmState) (chunk : String) : AsmState :=
  chunk.data.foldl asmStep s

/-- Feed a list of chunks in order. -/
def feedAll (s : AsmState) (chunks : List String) : AsmState :=
  chunks.foldl feed s

/-- Concatenation of a chunk list into the unsplit stream. -/
def concatChunks : List String → String
  | [] => ""
  | c :: cs => c ++ concatChunks cs

/-!
## Helper lemmas
-/

/-- Lookup after a JS object assignment: the assigned key reads back the
new value, every other key is untouched. -/
theorem objGet_objSet (caps : Obj) (k' : String) (v : CapValue) (k : String) :
    objGet (objSet caps k' v) k = if k' = k then some v else objGet caps k := by
  induction caps with
  | nil => simp [objSet, objGet]
  | cons a rest ih =>
    obtain ⟨ka, va⟩ := a
    simp only [objSet]
    by_cases h1 : ka = k'
    · subst h1
      rw [if_pos rfl]
      by_cases h2 : ka = k <;> simp [objGet, h2]
    · rw [if_neg h1]
      by_cases h2 : ka = k
      · have hk : ¬k' = k := fun he => h1 (h2.trans he.symm)
        simp [objGet, h2, hk]
      · simp [objGet, h2, ih]

/-- Folding `capStep` over a prior object is the merge of folding it over
the empty object with the prior object (left side wins). -/
theorem objGet_foldl_capStep (items : List String) :
    ∀ (caps : Obj) (k : String),
      objGet (items.foldl capStep caps) k =
        optOr (objGet (items.foldl capStep []) k) (objGet caps k) := by
  induction items with
  | nil => intro caps k; rfl
  | cons l ls ih =>
    intro caps k
    show objGet (ls.foldl capStep (capStep caps l)) k =
      optOr (objGet (ls.foldl capStep (capStep [] l)) k) (objGet caps k)
    rw [ih (capStep caps l) k, ih (capStep [] l) k]
    cases hA : objGet (ls.foldl capStep []) k with
    | some v => simp [optOr]
    | none =>
      simp only [optOr, capStep, objGet_objSet]
      by_cases hk : capKey l = k <;> simp [hk, objGet]

/-- `beginData` writes the literal `DATA` line. -/
theorem beginDataWrite_eq : beginDataWrite = "DATA\r\n" := rfl

/-- `endData` writes the literal terminator. -/
theorem endDataWrite_eq : endDataWrite = "\r\n.\r\n" := rfl

/-- String data of an append. -/
theorem strData_append (a b : String) : (a ++ b).data = a.data ++ b.data := rfl

/-!
## Claims
-/

/-- C1: the spec says a capability line with parameters stores only the
remainder after the keyword, e.g. `SIZE 10485760` yields
`SIZE ↦ "10485760"`. The code stores `item.join(" ")`, which rebuilds
the entire line including the keyword, so the example reply yields
`SIZE ↦ "SIZE 10485760"` instead — the code contradicts the intended
(and only sensible) value; the conditional is vacuous as written since
`split(" ")` then `join(" ")` is the identity. -/
theorem c1_parseCapabilities_keeps_keyword :
    parseCapabilities ["mail.example.com", "SIZE 10485760", "8BITMIME"] [] =
      [("SIZE", CapValue.str "SIZE 10485760"), ("8BITMIME", CapValue.flag)] ∧
    objGet (parseCapabilities ["mail.example.com", "SIZE 10485760", "8BITMIME"] []) "SIZE" ≠
      some (CapValue.str "10485760") := by
  decide

/-- C2 counterexample: after two successful handshakes (first reply
advertising `FOO`, second advertising `BAR`) the mapping still contains
`FOO`, while the mapping built from the second reply alone does not —
the code merges instead of replacing. -/
theorem c2_counterexample :
    objGet ((heloHandler (heloHandler initialState ⟨"250", ["h", "FOO"]⟩).1
        ⟨"250", ["h", "BAR"]⟩).1.capabilities) "FOO" = some CapValue.flag ∧
    objGet (parseCapabilities ["h", "BAR"] []) "FOO" = none ∧
    (heloHandler (heloHandler initialState ⟨"250", ["h", "FOO"]⟩).1
        ⟨"250", ["h", "BAR"]⟩).1.capabilities ≠ parseCapabilities ["h", "BAR"] [] := by
  decide

/-- C2 (amended): a successful handshake merges the new reply's
capabilities into the existing mapping — every key parsed from the new
reply takes its new value, and keys recorded earlier but absent from the
new reply retain their old values; the mapping is not rebuilt from the
new reply alone. -/
theorem c2_handshake_merges_capabilities (s : ClientState) (p : ReplyPacket) (k : String)
    (h : p.status = "250") :
    objGet ((heloHandler s p).1.capabilities) k =
      optOr (objGet (parseCapabilities p.data []) k) (objGet s.capabilities k) := by
  simp only [heloHandler, h, if_pos]
  exact objGet_foldl_capStep (p.data.drop 1) s.capabilities k

/-- C2 witness: the merge equation at the counterexample's inputs. -/
theorem c2_handshake_merges_capabilities_witness :
    (⟨"250", ["h", "BAR"]⟩ : ReplyPacket).status = "250" ∧
    objGet ((heloHandler (heloHandler initialState ⟨"250", ["h", "FOO"]⟩).1
        ⟨"250", ["h", "BAR"]⟩).1.capabilities) "FOO" =
      optOr (objGet (parseCapabilities ["h", "BAR"] []) "FOO")
        (objGet (heloHandler initialState ⟨"250", ["h", "FOO"]⟩).1.capabilities "FOO") :=
  ⟨rfl, c2_handshake_merges_capabilities
    (heloHandler initialState ⟨"250", ["h", "FOO"]⟩).1 ⟨"250", ["h", "BAR"]⟩ "FOO" rfl⟩

/-- C3: `mail(address)` writes exactly `MAIL FROM: <address>\r\n`,
succeeds (carrying the packet) exactly when the reply status is `250`,
and on any other status fails carrying the full packet (status and
lines). -/
theorem c3_mail (address : String) (p : ReplyPacket) :
    mailWrite address = "MAIL FROM: <" ++ address ++ ">" ++ "\r\n" ∧
    (mailHandler p = Outcome.ok (some p) ↔ p.status = "250") ∧
    (p.status ≠ "250" → mailHandler p = Outcome.err (some p)) := by
  refine ⟨rfl, ?_, ?_⟩ <;> by_cases h : p.status = "250" <;> simp [mailHandler, h]

/-- C3 witness: a rejected MAIL at a concrete address and reply. -/
theorem c3_mail_witness :
    (⟨"550", ["No"]⟩ : ReplyPacket).status ≠ "250" ∧
    mailHandler ⟨"550", ["No"]⟩ = Outcome.err (some ⟨"550", ["No"]⟩) :=
  ⟨by decide, (c3_mail "user@example.com" ⟨"550", ["No"]⟩).2.2 (by decide)⟩

/-- C4: starting from an open socket, `quit()` closes the socket exactly
when the reply status is `221` (emitting success then); on any other
status the socket stays open and the operation reports failure. -/
theorem c4_quit_closes_iff_221 (s : ClientState) (p : ReplyPacket)
    (hs : s.socketOpen = true) :
    ((quitHandler s p).1.socketOpen = false ↔ p.status = "221") ∧
    (p.status = "221" → (quitHandler s p).2 = Outcome.ok none) ∧
    (p.status ≠ "221" →
      (quitHandler s p).1.socketOpen = true ∧ (quitHandler s p).2 = Outcome.err none) := by
  by_cases h : p.status = "221" <;> simp [quitHandler, h, hs]

/-- C4 witness: a successful QUIT on the initial state. -/
theorem c4_quit_closes_iff_221_witness :
    initialState.socketOpen = true ∧
    (quitHandler initialState ⟨"221", ["Bye"]⟩).2 = Outcome.ok none :=
  ⟨rfl, (c4_quit_closes_iff_221 initialState ⟨"221", ["Bye"]⟩ rfl).2.1 rfl⟩

/-- C5 counterexample: `quit()` on a non-`221` reply emits its error with
no arguments, so the failure outcome carries no ReplyPacket at all —
refuting the claim that every verb's failure carries the full packet. -/
theorem c5_counterexample :
    (quitHandler initialState ⟨"500", ["Error"]⟩).2 = Outcome.err none ∧
    (quitHandler initialState ⟨"500", ["Error"]⟩).2 ≠
      Outcome.err (some ⟨"500", ["Error"]⟩) := by
  decide

/-- C5 (amended): for HELO, EHLO, MAIL, RCPT and DATA begin/end, a reply
with the wrong status yields a failure carrying the full ReplyPacket
(status and lines); QUIT is the exception — its failure carries no
packet. -/
theorem c5_failure_packets (s : ClientState) (p : ReplyPacket) :
    (p.status ≠ "250" →
      (heloHandler s p).2 = Outcome.err (some p) ∧
      (ehloHandler s p).2 = Outcome.err (some p) ∧
      mailHandler p = Outcome.err (some p) ∧
      rcptHandler p = Outcome.err (some p) ∧
      endDataHandler p = Outcome.err (some p)) ∧
    (p.status ≠ "354" → beginDataHandler p = Outcome.err (some p)) ∧
    (p.status ≠ "221" → (quitHandler s p).2 = Outcome.err none) := by
  refine ⟨fun h => ?_, fun h => ?_, fun h => ?_⟩ <;>
    simp [heloHandler, ehloHandler, mailHandler, rcptHandler, endDataHandler,
      beginDataHandler, quitHandler, h]

/-- C5 witness: a concrete rejected reply exercises both the
packet-carrying failures and QUIT's packetless failure. -/
theorem c5_failure_packets_witness :
    mailHandler ⟨"999", ["x"]⟩ = Outcome.err (some ⟨"999", ["x"]⟩) ∧
    (quitHandler initialState ⟨"999", ["x"]⟩).2 = Outcome.err none :=
  ⟨((c5_failure_packets initialState ⟨"999", ["x"]⟩).1 (by decide)).2.2.1,
   (c5_failure_packets initialState ⟨"999", ["x"]⟩).2.2 (by decide)⟩

/-- C6: on a `220` greeting received by a fresh session, `esmtp` ends up
true exactly when the greeting text contains `ESMTP` case-insensitively,
the greeting is accepted, and the handshake then writes `EHLO <host>`
when the token was present, else `HELO <host>`. -/
theorem c6_greeting_selects_handshake (s : ClientState) (p : ReplyPacket) (host : String)
    (he : s.esmtp = false) (hp : p.status = "220") :
    (connectGreeting s p).1.esmtp = esmtpRegexTest p.data ∧
    (connectGreeting s p).2 = true ∧
    handshakeWrite (connectGreeting s p).1 host =
      (if esmtpRegexTest p.data then sendLine ["EHLO", host] else sendLine ["HELO", host]) := by
  by_cases ht : esmtpRegexTest p.data <;>
    simp [connectGreeting, handshakeWrite, ehloWrite, heloWrite, hp, ht, he]

/-- C6 witness: the greeting `220 mail.example.com ESMTP Ready` selects
EHLO on a fresh session. -/
theorem c6_greeting_selects_handshake_witness :
    initialState.esmtp = false ∧
    (⟨"220", ["mail.example.com ESMTP Ready"]⟩ : ReplyPacket).status = "220" ∧
    (connectGreeting initialState ⟨"220", ["mail.example.com ESMTP Ready"]⟩).1.esmtp =
      esmtpRegexTest ["mail.example.com ESMTP Ready"] :=
  ⟨rfl, rfl,
    (c6_greeting_selects_handshake initialState ⟨"220", ["mail.example.com ESMTP Ready"]⟩
      "mail.example.com" rfl rfl).1⟩

/-- C7: the composite `data(payload)` succeeds exactly when the reply to
`DATA` is `354` and the reply to the terminator is `250`; when the `354`
check passes it performs exactly the three writes `DATA\r\n`, the
payload, `\r\n.\r\n` in order; when it fails only `DATA\r\n` was written
and the failure carries that reply. -/
theorem c7_data_three_writes (payload : String) (r1 r2 : ReplyPacket) :
    ((dataOp payload r1 r2).2 = Outcome.ok none ↔ r1.status = "354" ∧ r2.status = "250") ∧
    (r1.status = "354" →
      (dataOp payload r1 r2).1 = ["DATA\r\n", payload, "\r\n.\r\n"]) ∧
    (r1.status ≠ "354" →
      (dataOp payload r1 r2).1 = ["DATA\r\n"] ∧
      (dataOp payload r1 r2).2 = Outcome.err (some r1)) := by
  by_cases h1 : r1.status = "354" <;> by_cases h2 : r2.status = "250" <;>
    simp [dataOp, beginDataHandler, endDataHandler, sendDataWrite,
      beginDataWrite_eq, endDataWrite_eq, h1, h2]

/-- C7 witness: a fully successful DATA exchange at concrete inputs. -/
theorem c7_data_three_writes_witness :
    (⟨"354", ["Go"]⟩ : ReplyPacket).status = "354" ∧
    (dataOp "body" ⟨"354", ["Go"]⟩ ⟨"250", ["OK"]⟩).1 = ["DATA\r\n", "body", "\r\n.\r\n"] :=
  ⟨rfl, (c7_data_three_writes "body" ⟨"354", ["Go"]⟩ ⟨"250", ["OK"]⟩).2.1 rfl⟩

/-- C8: fragmentation invariance — feeding any list of chunks to the
reply assembler, in order, produces exactly the same state (and hence
the same emitted sequence of complete ReplyPackets, with identical
status and lines) as feeding the unsplit concatenated stream. -/
theorem c8_fragmentation_invariance (chunks : List String) :
    ∀ s : AsmState, feedAll s chunks = feed s (concatChunks chunks) := by
  induction chunks with
  | nil => intro s; rfl
  | cons c cs ih =>
    intro s
    show feedAll (feed s c) cs = feed s (c ++ concatChunks cs)
    rw [ih (feed s c)]
    simp [feed, strData_append, List.foldl_append]

/-- A concrete multi-line exchange, split mid-line and mid-CRLF, still
assembles into the two expected packets. -/
theorem feedAll_example :
    (feedAll initAsm ["220 hel", "lo\r", "\n250-X\r\n2", "50 Y\r\n"]).out =
      [⟨"220", ["hello"]⟩, ⟨"250", ["X", "Y"]⟩] := by
  decide

/-- C9: `helo()` and `ehlo()` are behaviourally identical except for the
command word written: same reply handling (success on `250` with
capability parsing and `connected := true`, failure with the packet
otherwise), different first word on the wire. -/
theorem c9_helo_ehlo_equiv (s : ClientState) (p : ReplyPacket) (host : String) :
    heloHandler s p = ehloHandler s p ∧
    heloWrite host = "HELO " ++ host ++ "\r\n" ∧
    ehloWrite host = "EHLO " ++ host ++ "\r\n" :=
  ⟨rfl, rfl, rfl⟩

/-- C10: a successful `quit()` (reply `221`) closes the socket but
leaves every session field — `esmtp`, `capabilities`, `connected` —
exactly as the last handshake left them. -/
theorem c10_quit_frame (s : ClientState) (p : ReplyPacket) (h : p.status = "221") :
    (quitHandler s p).1.esmtp = s.esmtp ∧
    (quitHandler s p).1.capabilities = s.capabilities ∧
    (quitHandler s p).1.connected = s.connected ∧
    (quitHandler s p).1.socketOpen = false ∧
    (quitHandler s p).2 = Outcome.ok none := by
  simp [quitHandler, h]

/-- C10 witness: after a successful handshake, a successful QUIT leaves
`connected` at `true`. -/
theorem c10_quit_frame_witness :
    (heloHandler initialState ⟨"250", ["h", "X"]⟩).1.connected = true ∧
    (quitHandler (heloHandler initialState ⟨"250", ["h", "X"]⟩).1
        ⟨"221", ["Bye"]⟩).1.connected =
      (heloHandler initialState ⟨"250", ["h", "X"]⟩).1.connected :=
  ⟨by decide,
   (c10_quit_frame (heloHandler initialState ⟨"250", ["h", "X"]⟩).1 ⟨"221", ["Bye"]⟩ rfl).2.2.1⟩

end SmtpClient
